import Mathlib

/-!
Verification of the OpenContext core against its specification.

This file embeds, as executable Lean definitions, the parts of the
repository that the claims concern:

* `src/core/validators.py`        — plugin-count validation (`validate_plugin_count`)
* `src/core/plugin_manager.py`    — `PluginManager.load_plugins` / `execute_tool`
* `src/core/mcp_server.py`        — `MCPServer.handle_request`
* `src/plugins/ckan/sql_validator.py` — `SQLValidator.validate_query`
* `src/plugins/ckan/plugin.py`    — `CKANPlugin.execute_tool`, `execute_sql`,
                                    `aggregate_data`

Python runtime values (the JSON-shaped dictionaries the code manipulates)
are embedded as the inductive type `JVal`; Python `None` is `JVal.null`.
Exceptions are embedded as `Except String` carrying `str(e)`.  Outbound
HTTP calls are an oracle function, and the list of calls actually issued
is threaded explicitly so that "no backend call was made" is provable.
-/

/-- A Python/JSON runtime value as produced by `json.loads` / YAML loading.
`null` doubles as Python `None`. Numbers are modelled as integers (no claim
involves floats). -/
inductive JVal where
  | null
  | bool (b : Bool)
  | num (n : Int)
  | str (s : String)
  | arr (elems : List JVal)
  | obj (fields : List (String × JVal))

/-- Python truthiness (`bool(v)`) of a JSON-shaped value: `None`, `False`,
`0`, `""`, `[]` and `{}` are falsy. -/
def JVal.truthy : JVal → Bool
  | .null => false
  | .bool b => b
  | .num n => n != 0
  | .str s => !s.isEmpty
  | .arr xs => !xs.isEmpty
  | .obj fs => !fs.isEmpty

/-- Python `type(v).__name__` for the embedded values. -/
def JVal.pyTypeName : JVal → String
  | .null => "NoneType"
  | .bool _ => "bool"
  | .num _ => "int"
  | .str _ => "str"
  | .arr _ => "list"
  | .obj _ => "dict"

mutual
/-- Python `repr(v)` for the embedded values (CPython prints dict/list
literals; strings are single-quoted — quote-escaping inside reprs is not
modelled, no claim depends on it). -/
def JVal.pyRepr : JVal → String
  | .null => "None"
  | .bool b => if b then "True" else "False"
  | .num n => toString n
  | .str s => "'" ++ s ++ "'"
  | .arr xs => "[" ++ JVal.pyReprArr xs ++ "]"
  | .obj fs => "\x7b" ++ JVal.pyReprObj fs ++ "\x7d"

/-- Comma-joined element reprs of a Python list. -/
def JVal.pyReprArr : List JVal → String
  | [] => ""
  | [x] => x.pyRepr
  | x :: y :: xs => x.pyRepr ++ ", " ++ JVal.pyReprArr (y :: xs)

/-- Comma-joined `'key': value` reprs of a Python dict. -/
def JVal.pyReprObj : List (String × JVal) → String
  | [] => ""
  | [(k, v)] => "'" ++ k ++ "': " ++ v.pyRepr
  | (k, v) :: f :: fs => "'" ++ k ++ "': " ++ v.pyRepr ++ ", " ++ JVal.pyReprObj (f :: fs)
end

/-- Python `str(v)` (as used by f-string interpolation): the string itself
for a `str`, `repr`-style text for containers, `None`/`True`/`False` for
the singletons. -/
def JVal.pyStr : JVal → String
  | .str s => s
  | v => v.pyRepr

/-- Python `dict.get(k, d)`: the stored value when the key is present
(including a stored `None`), else the default. -/
def dictGetD (fs : List (String × JVal)) (k : String) (d : JVal) : JVal :=
  match fs.lookup k with
  | some v => v
  | none => d

/-- Python whitespace recognised by `str.strip()` (ASCII subset; the
queries concerned are ASCII). -/
def isPyWs (c : Char) : Bool :=
  c == ' ' || c == '\t' || c == '\n' || c == '\r' || c == '\x0b' || c == '\x0c'

/-- Python `str.strip()`. -/
def pyStrip (s : String) : String :=
  ⟨((s.data.dropWhile isPyWs).reverse.dropWhile isPyWs).reverse⟩

/-- `sep.join(items)` as in Python. -/
def joinSep (sep : String) : List String → String
  | [] => ""
  | [x] => x
  | x :: y :: xs => x ++ sep ++ joinSep sep (y :: xs)

/-- Whether `pat` is a prefix of `l` (character lists). -/
def isPrefixL : List Char → List Char → Bool
  | [], _ => true
  | _ :: _, [] => false
  | a :: ps, b :: ls => a == b && isPrefixL ps ls

/-- Whether `pat` occurs as a contiguous sublist of `l` (the semantics of
Python's `in` / `re.search` on a literal pattern). -/
def containsL (pat : List Char) : List Char → Bool
  | [] => isPrefixL pat []
  | c :: rest => isPrefixL pat (c :: rest) || containsL pat rest

/-- Whether string `pat` occurs inside string `s`. -/
def strContains (s pat : String) : Bool := containsL pat.data s.data

/-- Lower-cased copy of a character list (ASCII, as `str.lower()` on the
inputs concerned). -/
def lowerL (l : List Char) : List Char := l.map Char.toLower

/-- Case-insensitive substring occurrence. -/
def strContainsCI (s pat : String) : Bool := containsL (lowerL pat.data) (lowerL s.data)

/-- Regex word character `\w` (ASCII): letters, digits, underscore. -/
def isWordChar (c : Char) : Bool := c.isAlphanum || c == '_'

/-- No word character stands at the head (a `\b` boundary holds there). -/
def boundaryAfterOk : List Char → Bool
  | [] => true
  | c :: _ => !isWordChar c

/-- The previous character (if any) is not a word character. -/
def boundaryBeforeOk : Option Char → Bool
  | none => true
  | some c => !isWordChar c

/-- Scan for `\bkw\b` in an (already lower-cased) text, with `prev` the
character before the current position.  Embeds
`re.search(rf"\b{keyword}\b", sql, re.IGNORECASE)` for an alphabetic
keyword. -/
def hasWordFrom (kw : List Char) : Option Char → List Char → Bool
  | _, [] => false
  | prev, c :: rest =>
    (boundaryBeforeOk prev && isPrefixL kw (c :: rest)
      && boundaryAfterOk (List.drop kw.length (c :: rest)))
    || hasWordFrom kw (some c) rest

/-- `re.search(rf"\b{kw}\b", text, re.IGNORECASE)` for alphabetic `kw`. -/
def hasWordCI (text kw : String) : Bool :=
  hasWordFrom (lowerL kw.data) none (lowerL text.data)

namespace SQLValidator

/-- `SQLValidator.MAX_SQL_LENGTH`. -/
def MAX_SQL_LENGTH : Nat := 50000

/-- `SQLValidator.FORBIDDEN_KEYWORDS`. -/
def FORBIDDEN_KEYWORDS : List String :=
  ["INSERT", "UPDATE", "DELETE", "DROP", "CREATE", "ALTER", "GRANT",
   "REVOKE", "TRUNCATE", "EXECUTE", "EXEC", "CALL", "DECLARE", "SET"]

/-- First forbidden keyword (in list order) occurring as a whole word,
case-insensitively — step 3 of `validate_query`. -/
def findForbidden (sql : String) : Option String :=
  FORBIDDEN_KEYWORDS.find? (fun kw => hasWordCI sql kw)

/-- Search, in a lower-cased text, for any of `ws` starting at or after the
current position with no newline consumed before it (the `.*` of an
`re.search` pattern does not cross `\n`). -/
def lineSearchWords (ws : List (List Char)) : List Char → Bool
  | [] => false
  | c :: rest => ws.any (fun w => isPrefixL w (c :: rest)) || (c != '\n' && lineSearchWords ws rest)

/-- `re.search(r";.*(?:DROP|DELETE|INSERT)", sql, re.IGNORECASE)` on a
lower-cased text: a semicolon with one of the words later on the same line. -/
def semicolonThen (ws : List (List Char)) : List Char → Bool
  | [] => false
  | c :: rest => (c == ';' && lineSearchWords ws rest) || semicolonThen ws rest

/-- `re.search(r"--.*(?:DROP|DELETE)", ...)` on a lower-cased text. -/
def dashDashThen (ws : List (List Char)) : List Char → Bool
  | [] => false
  | c :: rest =>
    (c == '-' && (match rest with
      | c2 :: rest2 => c2 == '-' && lineSearchWords ws rest2
      | [] => false))
    || dashDashThen ws rest

/-- Regex whitespace `\s` (ASCII). -/
def isReWs (c : Char) : Bool :=
  c == ' ' || c == '\t' || c == '\n' || c == '\r' || c == '\x0b' || c == '\x0c'

/-- One or more whitespace characters and then the literal `outfile`. -/
def wsPlusOutfile : List Char → Bool
  | [] => false
  | c :: rest => isReWs c && (isPrefixL "outfile".data rest || wsPlusOutfile rest)

/-- `into\s+outfile` matches starting exactly here (lower-cased text). -/
def intoOutfileAt (l : List Char) : Bool :=
  isPrefixL "into".data l && wsPlusOutfile (l.drop 4)

/-- Some suffix of the text satisfies `p`. -/
def anyAt (p : List Char → Bool) : List Char → Bool
  | [] => p []
  | c :: rest => p (c :: rest) || anyAt p rest

/-- Step 4 of `validate_query`: the fixed dangerous-pattern list, first
match wins, each embedded from its `re.search(..., re.IGNORECASE)` call. -/
def findDangerous (sql : String) : Option String :=
  let l := lowerL sql.data
  if semicolonThen ["drop".data, "delete".data, "insert".data] l then
    some "Multiple statements detected"
  else if dashDashThen ["drop".data, "delete".data] l then
    some "Dangerous comment detected"
  else if containsL "xp_cmdshell".data l then
    some "Command execution detected"
  else if anyAt intoOutfileAt l then
    some "File write detected"
  else if containsL "pg_sleep".data l then
    some "Sleep function detected"
  else none

/-- Count of statement-separating semicolons (outside single- or
double-quoted tokens), part of the model of the third-party
`sqlparse.parse` statement splitter. -/
def topSemiCount : Bool → Bool → List Char → Nat
  | _, _, [] => 0
  | inS, inD, c :: rest =>
    if c == '\'' && !inD then topSemiCount (!inS) inD rest
    else if c == '"' && !inS then topSemiCount inS (!inD) rest
    else if c == ';' && !inS && !inD then 1 + topSemiCount inS inD rest
    else topSemiCount inS inD rest

/-- The text after the last statement-separating semicolon, when one
exists. -/
def afterLastSemi : Bool → Bool → List Char → Option (List Char)
  | _, _, [] => none
  | inS, inD, c :: rest =>
    if c == '\'' && !inD then afterLastSemi (!inS) inD rest
    else if c == '"' && !inS then afterLastSemi inS (!inD) rest
    else if c == ';' && !inS && !inD then some ((afterLastSemi inS inD rest).getD rest)
    else afterLastSemi inS inD rest

/-- Modelled from the third-party `sqlparse` library: `len(sqlparse.parse(s))`.
Each top-level semicolon ends a statement; text remaining after the last
one forms a further statement when non-empty (the input is already
stripped). -/
def sqlparseStmtCount (s : String) : Nat :=
  let cnt := topSemiCount false false s.data
  if cnt == 0 then 1
  else
    match afterLastSemi false false s.data with
    | some tail => if tail.isEmpty then cnt else cnt + 1
    | none => cnt

/-- Modelled from the third-party `sqlparse` library:
`parsed[0].get_type() == "SELECT"` for a statement already known to start
with the letters `SELECT` (guaranteed by step 2): the first token is the
`SELECT` keyword exactly when no word character follows it. -/
def sqlparseTypeSelect (s : String) : Bool :=
  let l := lowerL s.data
  isPrefixL "select".data l &&
    (match l.drop 6 with
     | [] => true
     | c :: _ => !isWordChar c)

/-- A character of the class `[a-f0-9-]` with `re.IGNORECASE`. -/
def isIdClassChar (c : Char) : Bool :=
  ('a' ≤ c && c ≤ 'f') || ('A' ≤ c && c ≤ 'F') || c.isDigit || c == '-'

/-- A hex character `[a-f0-9]` with `re.IGNORECASE`. -/
def isHexChar (c : Char) : Bool :=
  ('a' ≤ c && c ≤ 'f') || ('A' ≤ c && c ≤ 'F') || c.isDigit

/-- The scan of `extractIds`, structurally recursive on a fuel that bounds
the number of scan steps (each step consumes at least one character, so a
fuel equal to the text length never runs out). -/
def extractIdsGo : Nat → List Char → List String
  | 0, _ => []
  | _, [] => []
  | fuel + 1, c :: rest =>
    if c == '"' then
      let tok := rest.take 36
      if tok.length == 36 && tok.all isIdClassChar && rest.get? 36 == some '"' then
        String.mk tok :: extractIdsGo fuel (rest.drop 37)
      else extractIdsGo fuel rest
    else extractIdsGo fuel rest

/-- `re.findall(r'"([a-f0-9-]{36})"', sql, re.IGNORECASE)`: the left-to-right
non-overlapping scan for a double quote, exactly 36 class characters, and a
closing double quote; on a match the scan resumes after the closing quote. -/
def extractIds (l : List Char) : List String := extractIdsGo l.length l

/-- `re.match` against `^[a-f0-9]{8}-[a-f0-9]{4}-[a-f0-9]{4}-[a-f0-9]{4}-[a-f0-9]{12}$`
with `re.IGNORECASE`. -/
def uuidMatch (rid : String) : Bool :=
  let l := rid.data
  l.length == 36 &&
    (List.range 36).all (fun i =>
      if i == 8 || i == 13 || i == 18 || i == 23 then l.getD i ' ' == '-'
      else isHexChar (l.getD i ' '))

/-- `SQLValidator.validate_query` from `src/plugins/ckan/sql_validator.py`.
The argument is the Python runtime value handed in (the code checks
`isinstance(sql, str)` itself). -/
def validate_query (sql : JVal) : Bool × Option String :=
  match sql with
  | .str s0 =>
    -- `if not sql or not isinstance(sql, str)`: an empty string is falsy
    if s0.isEmpty then (false, some "SQL must be non-empty string")
    else
      let s := pyStrip s0
      if s.length > MAX_SQL_LENGTH then
        (false, some ("SQL too long (max " ++ toString MAX_SQL_LENGTH ++ ")"))
      else if !isPrefixL "SELECT".data (s.data.map Char.toUpper) then
        (false, some "Only SELECT queries allowed")
      else
        match findForbidden s with
        | some kw => (false, some ("Forbidden keyword: " ++ kw))
        | none =>
          match findDangerous s with
          | some msg => (false, some msg)
          | none =>
            if sqlparseStmtCount s != 1 then (false, some "Multiple statements not allowed")
            else if !sqlparseTypeSelect s then (false, some "Only SELECT statements allowed")
            else
              match (extractIds s.data).find? (fun rid => !uuidMatch rid) with
              | some rid => (false, some ("Invalid UUID format: " ++ rid))
              | none => (true, none)
  | _ => (false, some "SQL must be non-empty string")

end SQLValidator

/-! ## `src/core/validators.py` -/

/-- The exception kinds `load_plugins` can surface, with `str(e)`. -/
inductive PyError where
  | configurationError (msg : String)
  | runtimeError (msg : String)
  | attributeError (msg : String)

/-- The plugin names the configuration enables, per
`validate_plugin_count`: entries of the `plugins` map whose value is a
dict and whose `enabled` field (default `False`) is truthy. -/
def enabledPluginsOf (pluginsConfig : List (String × JVal)) : List String :=
  pluginsConfig.filterMap (fun e =>
    match e.2 with
    | .obj fields => if (dictGetD fields "enabled" (.bool false)).truthy then some e.1 else none
    | _ => none)

/-- The `ConfigurationError` text raised when no plugin is enabled. -/
def noPluginsMsg : String :=
  "❌ Configuration Error: No Plugins Enabled\n\n" ++
  "You must enable exactly ONE plugin in config.yaml.\n\n" ++
  "To enable a plugin, set 'enabled: true' for:\n" ++
  "  • ckan\n" ++
  "  • A custom plugin in custom_plugins/\n\n" ++
  "See docs/QUICKSTART.md for setup instructions."

/-- The `ConfigurationError` text raised when several plugins are enabled
(the f-string of `validate_plugin_count`, counting and bulleting the
enabled names). -/
def multiPluginsMsg (enabled : List String) : String :=
  let pluginList := joinSep "\n" (enabled.map (fun n => "  • " ++ n))
  "❌ Configuration Error: Multiple Plugins Enabled\n\n" ++
  "You have " ++ toString enabled.length ++ " plugins enabled in config.yaml:\n" ++
  pluginList ++ "\n\n" ++
  "OpenContext enforces: One Fork = One MCP Server\n\n" ++
  "This keeps deployments:\n" ++
  "  ✓ Simple and focused\n" ++
  "  ✓ Independently scalable\n" ++
  "  ✓ Easy to maintain\n\n" ++
  "To deploy multiple MCP servers:\n\n" ++
  "  1. Fork this repository again\n" ++
  "     Example: opencontext-opendata, opencontext-mbta\n\n" ++
  "  2. Configure ONE plugin per fork\n" ++
  "     Fork #1: Enable " ++ enabled.getD 0 "" ++ " only\n" ++
  "     Fork #2: Enable " ++ enabled.getD 1 "" ++ " only\n\n" ++
  "  3. Deploy each fork separately\n" ++
  "     ./deploy.sh (in each fork)\n\n" ++
  "See docs/ARCHITECTURE.md for details."

/-- `validate_plugin_count` from `src/core/validators.py`: the enabled
plugin names and their count, or the fatal `ConfigurationError`.
(`config.get("plugins", {})` must be a dict for `.items()` to work; a
non-dict raises `AttributeError`.) -/
def validate_plugin_count (config : List (String × JVal)) : Except PyError (List String × Nat) :=
  match dictGetD config "plugins" (.obj []) with
  | .obj pluginsConfig =>
    let enabled := enabledPluginsOf pluginsConfig
    if enabled.length == 0 then .error (.configurationError noPluginsMsg)
    else if enabled.length > 1 then .error (.configurationError (multiPluginsMsg enabled))
    else .ok (enabled, enabled.length)
  | v => .error (.attributeError ("'" ++ v.pyTypeName ++ "' object has no attribute 'items'"))

/-- `get_enabled_plugin_config` from `src/core/validators.py`. -/
def get_enabled_plugin_config (config : List (String × JVal)) : Except PyError (String × JVal) :=
  match validate_plugin_count config with
  | .error e => .error e
  | .ok (enabled, _) =>
    if enabled.length != 1 then
      .error (.configurationError "Internal error: Expected exactly one enabled plugin")
    else
      let pluginName := enabled.getD 0 ""
      -- `config["plugins"][plugin_name]`: the name was taken from this dict
      match dictGetD config "plugins" (.obj []) with
      | .obj pluginsConfig => .ok (pluginName, dictGetD pluginsConfig pluginName .null)
      | _ => .ok (pluginName, .null)

/-! ## `src/core/plugin_manager.py` -/

/-- A `ToolResult` (`src/core/interfaces.py`): content blocks, success
flag, optional error message (default `None`). -/
structure ToolResult where
  content : List JVal
  success : Bool
  error_message : Option String

/-- A `ToolDefinition` (`src/core/interfaces.py`). -/
structure ToolDefinition where
  name : String
  description : String
  input_schema : JVal

/-- A loaded plugin as the registry sees it: its `get_tools()` result and
its (async) `execute_tool`, which may raise — the exception's `str(e)` is
the `Except.error`. -/
structure PluginModel where
  getTools : List ToolDefinition
  executeTool : String → JVal → Except String ToolResult

/-- The mutable state of a `PluginManager`: `self.plugins`, `self.tools`
(full name to `(plugin_name, tool_name)`), `self._initialized`. -/
structure PMState where
  plugins : List (String × PluginModel)
  tools : List (String × String × String)
  initialized : Bool

/-- The outcome oracles of one `load_plugins` run: what discovery finds and
how class load, construction and `initialize()` of a given plugin behave
(each `Except.error` is a raised exception's `str(e)`). -/
structure LoadEnv where
  discovered : List String
  loadClass : String → Except String Unit
  construct : String → Except String Unit
  initOutcome : String → Except String Bool

/-- Strict character-list order (Python's `<` on strings, by code point). -/
def ltCharList : List Char → List Char → Bool
  | [], [] => false
  | [], _ :: _ => true
  | _ :: _, [] => false
  | a :: xs, b :: ys => if a == b then ltCharList xs ys else decide (a < b)

/-- Python `<` on strings. -/
def ltStr (a b : String) : Bool := ltCharList a.data b.data

/-- Insert into an ascending list (helper of `sortStrings`). -/
def insertSorted (x : String) : List String → List String
  | [] => [x]
  | y :: ys => if ltStr y x then y :: insertSorted x ys else x :: y :: ys

/-- Python `sorted` on strings (insertion sort; ascending by `<`). -/
def sortStrings : List String → List String
  | [] => []
  | x :: xs => insertSorted x (sortStrings xs)

namespace PluginManager

/-- `PluginManager.load_plugins` from `src/core/plugin_manager.py`,
returning its outcome together with the names of the providers whose
instantiation was attempted (the trace proves "before any provider is
instantiated").  Inner exceptions of the initialize step are wrapped by
the surrounding `except` exactly as in the source. -/
def load_plugins (env : LoadEnv) (config : List (String × JVal)) :
    Except PyError Unit × List String :=
  match get_enabled_plugin_config config with
  | .error e => (.error e, [])
  | .ok (pluginName, _) =>
    if !env.discovered.contains pluginName then
      (.error (.runtimeError
        ("Plugin '" ++ pluginName ++ "' is enabled in config.yaml but not found.\n" ++
         "Available plugins: " ++ joinSep ", " env.discovered ++ "\n" ++
         "Check that plugins/" ++ pluginName ++ "/plugin.py exists, or\n" ++
         "custom_plugins/" ++ pluginName ++ "/plugin.py exists.")), [])
    else
      match env.loadClass pluginName with
      | .error e =>
        (.error (.runtimeError ("Failed to load plugin " ++ pluginName ++ ": " ++ e)), [])
      | .ok _ =>
        match env.construct pluginName with
        | .error e =>
          (.error (.runtimeError ("Failed to instantiate plugin " ++ pluginName ++ ": " ++ e)),
           [pluginName])
        | .ok _ =>
          match env.initOutcome pluginName with
          | .error e =>
            (.error (.runtimeError ("Failed to initialize plugin " ++ pluginName ++ ": " ++ e)),
             [pluginName])
          | .ok false =>
            (.error (.runtimeError ("Failed to initialize plugin " ++ pluginName ++
              ": Plugin " ++ pluginName ++ " initialization returned False")), [pluginName])
          | .ok true => (.ok (), [pluginName])

/-- `PluginManager.execute_tool` from `src/core/plugin_manager.py`.
The tool name is the runtime value extracted from the request (a
non-string is never a key of the string-keyed registry).  An
`Except.error` is a raised `RuntimeError`/`ValueError`; a provider
exception is caught and converted to a failed `ToolResult`. -/
def execute_tool (st : PMState) (tool_name : JVal) (arguments : JVal) :
    Except String ToolResult :=
  if !st.initialized then
    .error "Plugin Manager not initialized. Call load_plugins() first."
  else
    match (match tool_name with | .str s => st.tools.lookup s | _ => none) with
    | none =>
      .error ("Tool '" ++ tool_name.pyStr ++ "' not found. Available tools: " ++
        joinSep ", " (sortStrings (st.tools.map (·.1))))
    | some (pluginName, actualToolName) =>
      match st.plugins.lookup pluginName with
      | none => .error ("Plugin " ++ pluginName ++ " not loaded")
      | some plugin =>
        match plugin.executeTool actualToolName arguments with
        | .ok result => .ok result
        | .error e => .ok ⟨[], false, some ("Tool execution failed: " ++ e)⟩

/-- `PluginManager.get_all_tools`. -/
def get_all_tools (st : PMState) : List JVal :=
  st.plugins.flatMap (fun p =>
    p.2.getTools.map (fun td =>
      .obj [("name", .str (p.1 ++ "." ++ td.name)),
            ("description", .str td.description),
            ("inputSchema", td.input_schema)]))

end PluginManager

/-! ## `src/core/mcp_server.py` -/

namespace MCPServer

/-- The fixed `initialize` result. -/
def initializeResult : JVal :=
  .obj [("protocolVersion", .str "2025-03-26"),
        ("capabilities", .obj [("tools", .obj [])]),
        ("serverInfo", .obj [("name", .str "opencontext"), ("version", .str "1.0.0")])]

/-- `MCPServer._handle_tools_call`: extract `name`/`arguments` from the
`params` value, raise `ValueError("Tool name is required")` on a falsy
name (a non-dict `params` raises `AttributeError` at the first `.get`),
then route through the registry, shaping the reply from the outcome. -/
def handle_tools_call (st : PMState) (params : JVal) : Except String JVal :=
  match params with
  | .obj ps =>
    let toolName := dictGetD ps "name" .null
    let arguments := dictGetD ps "arguments" (.obj [])
    if !toolName.truthy then .error "Tool name is required"
    else
      match PluginManager.execute_tool st toolName arguments with
      | .error e => .error e
      | .ok result =>
        if result.success then
          .ok (.obj [("content", .arr result.content)])
        else
          .ok (.obj [("content", .arr result.content),
                     ("isError", .bool true),
                     ("error", match result.error_message with
                               | some s => .str s
                               | none => .null)])
  | v => .error ("'" ++ v.pyTypeName ++ "' object has no attribute 'get'")

/-- The `try:` body of `handle_request` (the method `elif` chain), with its
early `return None` paths as `none`:  `notifications/initialized` always
returns no reply, an unknown method of a notification is silently ignored,
an unknown method of a call raises `ValueError`. -/
def route (st : PMState) (method params : JVal) (isNotification : Bool) :
    Option (Except String JVal) :=
  let isMethod (m : String) : Bool :=
    match method with
    | .str s => s == m
    | _ => false
  if isMethod "initialize" then some (.ok initializeResult)
  else if isMethod "tools/list" then
    some (.ok (.obj [("tools", .arr (PluginManager.get_all_tools st))]))
  else if isMethod "tools/call" then some (handle_tools_call st params)
  else if isMethod "ping" then some (.ok (.obj [("status", .str "ok")]))
  else if isMethod "notifications/initialized" then none
  else if isNotification then none
  else some (.error ("Unknown method: " ++ method.pyStr))

/-- `MCPServer.handle_request` from `src/core/mcp_server.py`: `request.get`
of `id`/`method`/`params` (a stored JSON `null` and an absent key are both
Python `None`), notification classification by `request_id is None`, the
method routing, reply construction, and the catch-all that turns any
exception into the fixed internal-error reply — suppressed for
notifications. -/
def handle_request (st : PMState) (request : List (String × JVal)) : Option JVal :=
  let requestId := dictGetD request "id" .null
  let method := dictGetD request "method" .null
  let params := dictGetD request "params" (.obj [])
  let isNotification : Bool := match requestId with | .null => true | _ => false
  match route st method params isNotification with
  | none => none
  | some (.ok result) =>
    if isNotification then none
    else some (.obj [("jsonrpc", .str "2.0"), ("id", requestId), ("result", result)])
  | some (.error e) =>
    if isNotification then none
    else some (.obj [("jsonrpc", .str "2.0"), ("id", requestId),
                     ("error", .obj [("code", .num (-32603)),
                                     ("message", .str "Internal error"),
                                     ("data", .str e)])])

end MCPServer

/-! ## `src/plugins/ckan/plugin.py` -/

/-- The backing CKAN API as an oracle: action name and JSON payload to the
response `response.json()`, or a raised exception's `str(e)`.  The
bounded retry of `_call_ckan_api` is absorbed into the oracle (it returns
the eventual outcome of the retried call). -/
def Api : Type := String → JVal → Except String JVal

/-- One outbound backend call: `(action, payload)`. -/
def ApiCall : Type := String × JVal

/-- `v.get(k, d)` where `v` must be a Python dict: raises
`AttributeError` otherwise (as `response.get(...)` does on a non-dict
JSON body). -/
def pyDictGet (v : JVal) (k : String) (d : JVal) : Except String JVal :=
  match v with
  | .obj fs => .ok (dictGetD fs k d)
  | v => .error ("'" ++ v.pyTypeName ++ "' object has no attribute 'get'")

/-- `v.get(k, d)` on a value this file itself built as a dict (total,
only ever applied to `.obj`). -/
def jGetD (v : JVal) (k : String) (d : JVal) : JVal :=
  match v with
  | .obj fs => dictGetD fs k d
  | _ => d

/-- The string stored in a result-dict field this file built as a string
(`pyStr` of anything else, matching f-string coercion). -/
def jStrD (v : JVal) : String :=
  match v with
  | .str s => s
  | v => v.pyStr

/-- The display formatters of `CKANPlugin` (`_format_search_results`,
`_format_dataset`, `_format_query_results`, `_format_schema`,
`_format_sql_results`): pure string builders whose output text no claim
depends on, abstracted as functions alongside the API oracle. -/
structure CKANEnv where
  api : Api
  fmtSearch : JVal → String
  fmtDataset : JVal → String
  fmtQuery : JVal → JVal → String
  fmtSchema : JVal → String
  fmtSql : JVal → JVal → String

namespace CKANPlugin

/-- `value.replace("'", "''")` — each single quote doubled. -/
def pyReplaceQuotes (s : String) : String :=
  ⟨s.data.flatMap (fun c => if c == '\'' then ['\'', '\''] else [c])⟩

/-- The SQL string `CKANPlugin.aggregate_data` assembles before handing it
to `execute_sql` — the f-string
`SELECT {select_clause} FROM "{resource_id}" {where} {group} {having} {order} LIMIT {limit}`
stripped, with the clauses built exactly as in the source. -/
def buildAggSql (resource_id : JVal) (group_by : List String)
    (metrics : List (String × JVal)) (filters : Option (List (String × JVal)))
    (having : Option (List (String × JVal))) (order_by : JVal) (limit : JVal) : String :=
  let selectFields := if group_by.isEmpty then "" else joinSep ", " group_by
  let selectMetrics := joinSep ", " (metrics.map (fun m => m.2.pyStr ++ " as " ++ m.1))
  let selectClause :=
    if selectFields.isEmpty then selectMetrics
    else selectFields ++ ", " ++ selectMetrics
  let whereClause :=
    match filters with
    | some fs =>
      if fs.isEmpty then ""
      else "WHERE " ++ joinSep " AND " (fs.map (fun fv =>
        match fv.2 with
        | .str s => fv.1 ++ " = '" ++ pyReplaceQuotes s ++ "'"
        | .null => fv.1 ++ " IS NULL"
        | v => fv.1 ++ " = " ++ v.pyStr))
    | none => ""
  let groupClause := if group_by.isEmpty then "" else "GROUP BY " ++ joinSep ", " group_by
  let havingClause :=
    match having with
    | some hs =>
      if hs.isEmpty then ""
      else "HAVING " ++ joinSep " AND " (hs.map (fun hv => hv.1 ++ " > " ++ hv.2.pyStr))
    | none => ""
  let orderClause := if order_by.truthy then "ORDER BY " ++ order_by.pyStr else ""
  pyStrip ("SELECT " ++ selectClause ++ " FROM \"" ++ resource_id.pyStr ++ "\" " ++
    whereClause ++ " " ++ groupClause ++ " " ++ havingClause ++ " " ++ orderClause ++
    " LIMIT " ++ limit.pyStr)

/-- `CKANPlugin.execute_sql`: validate, then either return the rejection
dict without any backend call, or issue `datastore_search_sql` and shape
the success/error dict (its own `try/except` catches API exceptions).
The second component lists the backend calls issued. -/
def execute_sql (api : Api) (sql : JVal) : JVal × List ApiCall :=
  match SQLValidator.validate_query sql with
  | (false, err) =>
    (.obj [("error", .bool true),
           ("message", match err with | some e => .str e | none => .null)], [])
  | (true, _) =>
    let payload : JVal := .obj [("sql", sql)]
    match api "datastore_search_sql" payload with
    | .error e =>
      (.obj [("error", .bool true), ("message", .str e)], [("datastore_search_sql", payload)])
    | .ok result =>
      match (do
        let r1 ← pyDictGet result "result" (.obj [])
        let records ← pyDictGet r1 "records" (.arr [])
        let r2 ← pyDictGet result "result" (.obj [])
        let fields ← pyDictGet r2 "fields" (.arr [])
        pure (JVal.obj [("success", .bool true), ("records", records), ("fields", fields)])) with
      | .ok d => (d, [("datastore_search_sql", payload)])
      | .error e =>
        (.obj [("error", .bool true), ("message", .str e)], [("datastore_search_sql", payload)])

/-- Iterating `", ".join(group_by)` / `GROUP BY` over the runtime value:
a list of strings iterates elementwise (a non-string element would raise
`TypeError` in `join`), a string iterates its characters, a dict its
keys; a falsy non-iterable is never iterated (both uses are guarded by
`if group_by`), a truthy non-iterable raises. -/
def iterStrings (v : JVal) : Except String (List String) :=
  match v with
  | .arr xs =>
    xs.foldr (fun x acc =>
      match x, acc with
      | .str s, .ok l => .ok (s :: l)
      | _, .ok _ => .error "sequence item: expected str instance"
      | _, .error e => .error e) (.ok [])
  | .str s => .ok (s.data.map (fun c => String.mk [c]))
  | .obj fs => .ok (fs.map (·.1))
  | v => if v.truthy then .error ("'" ++ v.pyTypeName ++ "' object is not iterable") else .ok []

/-- `metrics.items()` on the runtime value (guarded truthy by the caller);
raises `AttributeError` on a non-dict. -/
def itemsOf (v : JVal) : Except String (List (String × JVal)) :=
  match v with
  | .obj fs => .ok fs
  | v => .error ("'" ++ v.pyTypeName ++ "' object has no attribute 'items'")

/-- `filters` / `having` as `aggregate_data` consumes them: skipped when
falsy (`if filters:`), `.items()` of a truthy dict, `AttributeError` on a
truthy non-dict. -/
def optItemsOf (v : JVal) : Except String (Option (List (String × JVal))) :=
  match v with
  | .obj fs => .ok (some fs)
  | v =>
    if v.truthy then .error ("'" ++ v.pyTypeName ++ "' object has no attribute 'items'")
    else .ok none

/-- `CKANPlugin.aggregate_data`: build the SQL string and run it through
`execute_sql` (with its validator gate). -/
def aggregate_data (api : Api) (resource_id : JVal) (group_by : List String)
    (metrics : List (String × JVal)) (filters : Option (List (String × JVal)))
    (having : Option (List (String × JVal))) (order_by : JVal) (limit : JVal) :
    JVal × List ApiCall :=
  execute_sql api
    (.str (buildAggSql resource_id group_by metrics filters having order_by limit))

/-- `arguments.get(...)`'s receiver: the argument dict's fields, or the
`AttributeError` a non-dict raises at the first `.get`. -/
def argFields (arguments : JVal) : Except String (List (String × JVal)) :=
  match arguments with
  | .obj fs => .ok fs
  | v => .error ("'" ++ v.pyTypeName ++ "' object has no attribute 'get'")

end CKANPlugin

namespace CKANPlugin

/-- The `search_datasets` branch of `CKANPlugin.execute_tool`. -/
def searchDatasetsTool (env : CKANEnv) (arguments : JVal) :
    Except String ToolResult × List ApiCall :=
  match argFields arguments with
  | .error e => (.error e, [])
  | .ok fs =>
    let query := dictGetD fs "query" (.str "")
    let lim := dictGetD fs "limit" (.num 20)
    let payload : JVal := .obj [("q", query), ("rows", lim)]
    match env.api "package_search" payload with
    | .error e => (.error e, [("package_search", payload)])
    | .ok response =>
      match (do
        let r ← pyDictGet response "result" (.obj [])
        pyDictGet r "results" (.arr [])) with
      | .error e => (.error e, [("package_search", payload)])
      | .ok datasets =>
        (.ok ⟨[.obj [("type", .str "text"), ("text", .str (env.fmtSearch datasets))]],
          true, none⟩, [("package_search", payload)])

/-- The `get_dataset` branch of `CKANPlugin.execute_tool`. -/
def getDatasetTool (env : CKANEnv) (arguments : JVal) :
    Except String ToolResult × List ApiCall :=
  match argFields arguments with
  | .error e => (.error e, [])
  | .ok fs =>
    let datasetId := dictGetD fs "dataset_id" .null
    if !datasetId.truthy then
      (.ok ⟨[], false, some "dataset_id is required"⟩, [])
    else
      let payload : JVal := .obj [("id", datasetId)]
      match env.api "package_show" payload with
      | .error e => (.error e, [("package_show", payload)])
      | .ok response =>
        match pyDictGet response "result" (.obj []) with
        | .error e => (.error e, [("package_show", payload)])
        | .ok dataset =>
          (.ok ⟨[.obj [("type", .str "text"), ("text", .str (env.fmtDataset dataset))]],
            true, none⟩, [("package_show", payload)])

/-- The `query_data` branch of `CKANPlugin.execute_tool` (base params plus
`params[f"filters[{field}]"] = value` per filter). -/
def queryDataTool (env : CKANEnv) (arguments : JVal) :
    Except String ToolResult × List ApiCall :=
  match argFields arguments with
  | .error e => (.error e, [])
  | .ok fs =>
    let resourceId := dictGetD fs "resource_id" .null
    if !resourceId.truthy then
      (.ok ⟨[], false, some "resource_id is required"⟩, [])
    else
      let filters := dictGetD fs "filters" (.obj [])
      let lim := dictGetD fs "limit" (.num 100)
      match (if filters.truthy then itemsOf filters else .ok []) with
      | .error e => (.error e, [])
      | .ok filterItems =>
        let payload : JVal := .obj ([("resource_id", resourceId), ("limit", lim)] ++
          filterItems.map (fun fv => ("filters[" ++ fv.1 ++ "]", fv.2)))
        match env.api "datastore_search" payload with
        | .error e => (.error e, [("datastore_search", payload)])
        | .ok response =>
          match (do
            let r ← pyDictGet response "result" (.obj [])
            pyDictGet r "records" (.arr [])) with
          | .error e => (.error e, [("datastore_search", payload)])
          | .ok records =>
            (.ok ⟨[.obj [("type", .str "text"), ("text", .str (env.fmtQuery records lim))]],
              true, none⟩, [("datastore_search", payload)])

/-- The `get_schema` branch of `CKANPlugin.execute_tool`. -/
def getSchemaTool (env : CKANEnv) (arguments : JVal) :
    Except String ToolResult × List ApiCall :=
  match argFields arguments with
  | .error e => (.error e, [])
  | .ok fs =>
    let resourceId := dictGetD fs "resource_id" .null
    if !resourceId.truthy then
      (.ok ⟨[], false, some "resource_id is required"⟩, [])
    else
      let payload : JVal := .obj [("resource_id", resourceId), ("limit", .num 0)]
      match env.api "datastore_search" payload with
      | .error e => (.error e, [("datastore_search", payload)])
      | .ok response =>
        match (do
          let r ← pyDictGet response "result" (.obj [])
          pyDictGet r "fields" (.arr [])) with
        | .error e => (.error e, [("datastore_search", payload)])
        | .ok schema =>
          (.ok ⟨[.obj [("type", .str "text"), ("text", .str (env.fmtSchema schema))]],
            true, none⟩, [("datastore_search", payload)])

/-- The `execute_sql` branch of `CKANPlugin.execute_tool`: falsy-`sql`
guard, then `execute_sql` with its validator gate, then the
error-dict/success-dict shaping. -/
def executeSqlTool (env : CKANEnv) (arguments : JVal) :
    Except String ToolResult × List ApiCall :=
  match argFields arguments with
  | .error e => (.error e, [])
  | .ok fs =>
    let sql := dictGetD fs "sql" .null
    if !sql.truthy then
      (.ok ⟨[], false, some "sql parameter is required"⟩, [])
    else
      let rc := execute_sql env.api sql
      if (jGetD rc.1 "error" .null).truthy then
        (.ok ⟨[], false, some (jStrD (jGetD rc.1 "message" (.str "SQL execution failed")))⟩,
         rc.2)
      else
        let records := jGetD rc.1 "records" (.arr [])
        let fields := jGetD rc.1 "fields" (.arr [])
        (.ok ⟨[.obj [("type", .str "text"), ("text", .str (env.fmtSql records fields))]],
          true, none⟩, rc.2)

/-- The `aggregate_data` branch of `CKANPlugin.execute_tool`:
required-argument guards, iteration/`.items()` of the structured
arguments, then `aggregate_data` (builder plus validator gate) and the
result shaping. -/
def aggregateDataTool (env : CKANEnv) (arguments : JVal) :
    Except String ToolResult × List ApiCall :=
  match argFields arguments with
  | .error e => (.error e, [])
  | .ok fs =>
    let resourceId := dictGetD fs "resource_id" .null
    if !resourceId.truthy then
      (.ok ⟨[], false, some "resource_id parameter is required"⟩, [])
    else
      let metrics := dictGetD fs "metrics" (.obj [])
      if !metrics.truthy then
        (.ok ⟨[], false, some "metrics parameter is required"⟩, [])
      else
        match (do
          let gb ← iterStrings (dictGetD fs "group_by" (.arr []))
          let ms ← itemsOf metrics
          let fl ← optItemsOf (dictGetD fs "filters" .null)
          let hv ← optItemsOf (dictGetD fs "having" .null)
          pure (gb, ms, fl, hv)) with
        | .error e => (.error e, [])
        | .ok (gb, ms, fl, hv) =>
          let rc := aggregate_data env.api resourceId gb ms fl hv
            (dictGetD fs "order_by" .null) (dictGetD fs "limit" (.num 100))
          if (jGetD rc.1 "error" .null).truthy then
            (.ok ⟨[], false, some (jStrD (jGetD rc.1 "message" (.str "Aggregation failed")))⟩,
             rc.2)
          else
            let records := jGetD rc.1 "records" (.arr [])
            let fields := jGetD rc.1 "fields" (.arr [])
            (.ok ⟨[.obj [("type", .str "text"), ("text", .str (env.fmtSql records fields))]],
              true, none⟩, rc.2)

/-- The `try:` body of `CKANPlugin.execute_tool` from
`src/plugins/ckan/plugin.py`: the tool-name `elif` chain over the branch
bodies above.  The second component lists the backend calls issued; an
`Except.error` is an exception the outer `except` will convert. -/
def execute_tool_body (env : CKANEnv) (tool_name : String) (arguments : JVal) :
    Except String ToolResult × List ApiCall :=
  if tool_name = "search_datasets" then searchDatasetsTool env arguments
  else if tool_name = "get_dataset" then getDatasetTool env arguments
  else if tool_name = "query_data" then queryDataTool env arguments
  else if tool_name = "get_schema" then getSchemaTool env arguments
  else if tool_name = "execute_sql" then executeSqlTool env arguments
  else if tool_name = "aggregate_data" then aggregateDataTool env arguments
  else (.ok ⟨[], false, some ("Unknown tool: " ++ tool_name)⟩, [])

/-- `CKANPlugin.execute_tool`: the branch body under the outer
`try/except` that converts any exception into a failed `ToolResult`. -/
def execute_tool (env : CKANEnv) (tool_name : String) (arguments : JVal) :
    ToolResult × List ApiCall :=
  match execute_tool_body env tool_name arguments with
  | (.ok r, t) => (r, t)
  | (.error e, t) => (⟨[], false, some ("Tool execution failed: " ++ e)⟩, t)

end CKANPlugin

/-! ## Substring and sorting lemmas -/

theorem isPrefixL_append (p t : List Char) : isPrefixL p (p ++ t) = true := by
  induction p with
  | nil => simp [isPrefixL]
  | cons a ps ih => simp [isPrefixL, ih]

theorem isPrefixL_mono (pat l b : List Char) (h : isPrefixL pat l = true) :
    isPrefixL pat (l ++ b) = true := by
  induction pat generalizing l with
  | nil => simp [isPrefixL]
  | cons a ps ih =>
    cases l with
    | nil => simp [isPrefixL] at h
    | cons c rest =>
      simp only [isPrefixL, Bool.and_eq_true] at h
      simp only [List.cons_append, isPrefixL, Bool.and_eq_true]
      exact ⟨h.1, ih rest h.2⟩

theorem containsL_nil_pat (l : List Char) : containsL [] l = true := by
  cases l <;> simp [containsL, isPrefixL]

theorem containsL_of_isPrefix (pat l : List Char) (h : isPrefixL pat l = true) :
    containsL pat l = true := by
  cases l with
  | nil => simpa [containsL] using h
  | cons c rest => simp [containsL, h]

theorem containsL_append_left (pat a l : List Char) (h : containsL pat l = true) :
    containsL pat (a ++ l) = true := by
  induction a with
  | nil => simpa using h
  | cons x xs ih => simp [containsL, ih]

theorem containsL_append_right (pat l b : List Char) (h : containsL pat l = true) :
    containsL pat (l ++ b) = true := by
  induction l with
  | nil =>
    have hp : isPrefixL pat [] = true := by simpa [containsL] using h
    have : pat = [] := by cases pat with
      | nil => rfl
      | cons a ps => simp [isPrefixL] at hp
    subst this
    exact containsL_nil_pat b
  | cons c rest ih =>
    simp only [containsL, Bool.or_eq_true] at h
    rcases h with h | h
    · exact containsL_of_isPrefix _ _ (isPrefixL_mono _ _ _ h)
    · simp [containsL, ih h]

theorem containsL_middle (pat a b : List Char) : containsL pat (a ++ (pat ++ b)) = true :=
  containsL_append_left _ _ _ (containsL_of_isPrefix _ _ (isPrefixL_append pat b))

theorem strContains_joinSep (sep k : String) (l : List String) (h : k ∈ l) :
    strContains (joinSep sep l) k = true := by
  induction l with
  | nil => cases h
  | cons x xs ih =>
    rcases List.mem_cons.mp h with h | h
    · subst h
      cases xs with
      | nil =>
        simpa [strContains, joinSep] using
          containsL_of_isPrefix _ _ (by simpa using isPrefixL_append k.data [])
      | cons y ys =>
        have : containsL k.data (k.data ++ (sep.data ++ (joinSep sep (y :: ys)).data)) = true :=
          containsL_of_isPrefix _ _ (isPrefixL_append _ _)
        simpa [strContains, joinSep, String.data_append] using this
    · cases xs with
      | nil => cases h
      | cons y ys =>
        have hin := ih h
        simp only [strContains] at hin
        have : containsL k.data ((x.data ++ sep.data) ++ (joinSep sep (y :: ys)).data) = true :=
          containsL_append_left _ _ _ hin
        simpa [strContains, joinSep, String.data_append] using this

theorem strContains_append_left (p s k : String) (h : strContains s k = true) :
    strContains (p ++ s) k = true := by
  simp only [strContains, String.data_append]
  exact containsL_append_left _ _ _ h

theorem strContains_append_right (s q k : String) (h : strContains s k = true) :
    strContains (s ++ q) k = true := by
  simp only [strContains, String.data_append]
  exact containsL_append_right _ _ _ h

theorem mem_insertSorted (x a : String) (l : List String) :
    a ∈ insertSorted x l ↔ a = x ∨ a ∈ l := by
  induction l with
  | nil => simp [insertSorted]
  | cons y ys ih =>
    simp only [insertSorted]
    split
    · simp only [List.mem_cons, ih]
      tauto
    · simp only [List.mem_cons]

theorem mem_sortStrings (a : String) (l : List String) (h : a ∈ l) :
    a ∈ sortStrings l := by
  induction l with
  | nil => cases h
  | cons x xs ih =>
    rcases List.mem_cons.mp h with h | h
    · exact (mem_insertSorted x a _).mpr (Or.inl h)
    · exact (mem_insertSorted x a _).mpr (Or.inr (ih h))

/-! ## Claim C1 -/

/-- The spec's notion of an enabled entry: a plugins-map entry whose value
carries `enabled = true` (the JSON boolean). -/
def enabledTrueOf (pluginsConfig : List (String × JVal)) : List String :=
  pluginsConfig.filterMap (fun e =>
    match e.2 with
    | .obj fields =>
      match fields.lookup "enabled" with
      | some (.bool true) => some e.1
      | _ => none
    | _ => none)

/-- Every `enabled` field present in the plugins map is a JSON boolean
(the configuration surface the spec describes). -/
def boolEnabledOnly (pluginsConfig : List (String × JVal)) : Bool :=
  pluginsConfig.all (fun e =>
    match e.2 with
    | .obj fields =>
      match fields.lookup "enabled" with
      | some (.bool _) => true
      | some _ => false
      | none => true
    | _ => true)

theorem enabledPluginsOf_eq_enabledTrueOf (pcfg : List (String × JVal))
    (hb : boolEnabledOnly pcfg = true) : enabledPluginsOf pcfg = enabledTrueOf pcfg := by
  unfold enabledPluginsOf enabledTrueOf
  apply List.filterMap_congr
  intro e he
  have hbe := (List.all_eq_true.mp hb) e he
  obtain ⟨n, c⟩ := e
  cases c with
  | obj fields =>
    simp only at hbe ⊢
    cases hl : fields.lookup "enabled" with
    | none => simp [dictGetD, hl, JVal.truthy]
    | some v =>
      rw [hl] at hbe
      cases v with
      | bool b => cases b <;> simp [dictGetD, hl, JVal.truthy]
      | null => simp at hbe
      | num n' => simp at hbe
      | str s => simp at hbe
      | arr xs => simp at hbe
      | obj fs => simp at hbe
  | null => rfl
  | bool b => rfl
  | num n' => rfl
  | str s => rfl
  | arr xs => rfl

theorem isPrefixL_iff (p l : List Char) : isPrefixL p l = true ↔ ∃ t, l = p ++ t := by
  induction p generalizing l with
  | nil => simp [isPrefixL]
  | cons a ps ih =>
    cases l with
    | nil => simp [isPrefixL]
    | cons c rest =>
      simp only [isPrefixL, Bool.and_eq_true, beq_iff_eq, ih, List.cons_append]
      constructor
      · rintro ⟨h1, t, h2⟩
        exact ⟨t, by rw [← h1, h2]⟩
      · rintro ⟨t, h⟩
        injection h with h1 h2
        exact ⟨h1.symm, t, h2⟩

theorem containsL_iff (pat l : List Char) :
    containsL pat l = true ↔ ∃ u v, l = u ++ (pat ++ v) := by
  induction l with
  | nil =>
    simp only [containsL, isPrefixL_iff]
    constructor
    · rintro ⟨t, h⟩
      exact ⟨[], t, by simpa using h⟩
    · rintro ⟨u, v, h⟩
      rw [eq_comm, List.append_eq_nil] at h
      exact ⟨v, by simp [h.1, h.2.symm]⟩
  | cons c rest ih =>
    simp only [containsL, Bool.or_eq_true, ih, isPrefixL_iff]
    constructor
    · rintro (⟨t, h⟩ | ⟨u, v, h⟩)
      · exact ⟨[], t, by simpa using h⟩
      · exact ⟨c :: u, v, by simp [h]⟩
    · rintro ⟨u, v, h⟩
      cases u with
      | nil => exact Or.inl ⟨v, by simpa using h⟩
      | cons x us =>
        injection h with h1 h2
        exact Or.inr ⟨us, v, h2⟩

theorem strContains_iff (s k : String) :
    strContains s k = true ↔ ∃ u v, s.data = u ++ (k.data ++ v) := by
  simp [strContains, containsL_iff]

theorem strContains_trans (s t k : String) (h1 : strContains s t = true)
    (h2 : strContains t k = true) : strContains s k = true := by
  rw [strContains_iff] at h1 h2 ⊢
  obtain ⟨u, v, hu⟩ := h1
  obtain ⟨u', v', hu'⟩ := h2
  exact ⟨u ++ u', v' ++ v, by rw [hu, hu']; simp⟩

/-- C1.  For a configuration whose plugins map carries boolean `enabled`
fields: zero or at least two entries with `enabled = true` make
`load_plugins` raise a `ConfigurationError` with no provider instantiation
attempted; with at least two, the error text names every enabled entry;
with exactly one, the enabled-count validation raises no error. -/
theorem c1_plugin_count_validation (env : LoadEnv) (config pcfg : List (String × JVal))
    (hp : dictGetD config "plugins" (.obj []) = .obj pcfg)
    (hb : boolEnabledOnly pcfg = true) :
    ((enabledTrueOf pcfg).length = 0 →
      PluginManager.load_plugins env config = (.error (.configurationError noPluginsMsg), [])) ∧
    (2 ≤ (enabledTrueOf pcfg).length →
      PluginManager.load_plugins env config =
        (.error (.configurationError (multiPluginsMsg (enabledTrueOf pcfg))), []) ∧
      ∀ n ∈ enabledTrueOf pcfg, strContains (multiPluginsMsg (enabledTrueOf pcfg)) n = true) ∧
    ((enabledTrueOf pcfg).length = 1 →
      validate_plugin_count config = .ok (enabledTrueOf pcfg, 1)) := by
  have he := enabledPluginsOf_eq_enabledTrueOf pcfg hb
  refine ⟨?_, ?_, ?_⟩
  · intro h0
    simp [PluginManager.load_plugins, get_enabled_plugin_config, validate_plugin_count,
      hp, he, h0]
  · intro h2
    constructor
    · have hne : ¬ (enabledTrueOf pcfg).length = 0 := by omega
      have hgt : (enabledTrueOf pcfg).length > 1 := by omega
      simp [PluginManager.load_plugins, get_enabled_plugin_config, validate_plugin_count,
        hp, he, hne, hgt]
    · intro n hn
      have hmem : ("  • " ++ n) ∈ (enabledTrueOf pcfg).map (fun m => "  • " ++ m) :=
        List.mem_map_of_mem _ hn
      have hjoin := strContains_joinSep "\n" ("  • " ++ n)
        ((enabledTrueOf pcfg).map (fun m => "  • " ++ m)) hmem
      have hsub : strContains ("  • " ++ n) n = true :=
        (strContains_iff _ _).mpr ⟨"  • ".data, [], by simp [String.data_append]⟩
      have hPL : strContains
          (joinSep "\n" ((enabledTrueOf pcfg).map (fun m => "  • " ++ m))) n = true :=
        strContains_trans _ _ _ hjoin hsub
      simp only [multiPluginsMsg]
      iterate 19 apply strContains_append_right
      exact strContains_append_left _ _ _ hPL
  · intro h1
    simp [validate_plugin_count, hp, he, h1]

/-- Witness for C1: the spec's two-plugin example configuration
`{"plugins": {"a": {"enabled": true}, "b": {"enabled": true}}}` raises the
multiple-plugins `ConfigurationError` naming `a` and `b`, a one-plugin
configuration validates, and an empty plugins map raises the
no-plugins `ConfigurationError`. -/
theorem c1_plugin_count_validation_witness :
    (PluginManager.load_plugins
        ⟨["ckan"], fun _ => .ok (), fun _ => .ok (), fun _ => .ok true⟩
        [("plugins", .obj [("a", .obj [("enabled", .bool true)]),
                           ("b", .obj [("enabled", .bool true)])])] =
      (.error (.configurationError (multiPluginsMsg ["a", "b"])), []) ∧
     strContains (multiPluginsMsg ["a", "b"]) "a" = true ∧
     strContains (multiPluginsMsg ["a", "b"]) "b" = true) ∧
    (PluginManager.load_plugins
        ⟨["ckan"], fun _ => .ok (), fun _ => .ok (), fun _ => .ok true⟩
        [("plugins", .obj [])] =
      (.error (.configurationError noPluginsMsg), [])) ∧
    validate_plugin_count [("plugins", .obj [("ckan", .obj [("enabled", .bool true)])])] =
      .ok (["ckan"], 1) := by
  have h2 := c1_plugin_count_validation
    ⟨["ckan"], fun _ => .ok (), fun _ => .ok (), fun _ => .ok true⟩
    [("plugins", .obj [("a", .obj [("enabled", .bool true)]),
                       ("b", .obj [("enabled", .bool true)])])]
    [("a", .obj [("enabled", .bool true)]), ("b", .obj [("enabled", .bool true)])]
    rfl rfl
  have h0 := c1_plugin_count_validation
    ⟨["ckan"], fun _ => .ok (), fun _ => .ok (), fun _ => .ok true⟩
    [("plugins", .obj [])] [] rfl rfl
  have h1 := c1_plugin_count_validation
    ⟨["ckan"], fun _ => .ok (), fun _ => .ok (), fun _ => .ok true⟩
    [("plugins", .obj [("ckan", .obj [("enabled", .bool true)])])]
    [("ckan", .obj [("enabled", .bool true)])] rfl rfl
  refine ⟨⟨?_, ?_, ?_⟩, ?_, ?_⟩
  · exact (h2.2.1 (by decide)).1
  · exact (h2.2.1 (by decide)).2 "a" (by decide)
  · exact (h2.2.1 (by decide)).2 "b" (by decide)
  · exact h0.1 (by decide)
  · exact h1.2.2 (by decide)

/-! ## Claims C2 and C10 -/

theorem handle_request_of_null_id (st : PMState) (request : List (String × JVal))
    (h : dictGetD request "id" .null = .null) :
    MCPServer.handle_request st request = none := by
  simp only [MCPServer.handle_request, h]
  cases hr : MCPServer.route st (dictGetD request "method" JVal.null)
      (dictGetD request "params" (JVal.obj [])) true with
  | none => simp [hr]
  | some r => cases r <;> simp [hr]

/-- C2.  An envelope without an `id` field is a notification:
`handle_request` returns no reply for every method of every server state —
in particular also when the routed handler raises — and never a JSON-RPC
error object. -/
theorem c2_notification_no_reply (st : PMState) (request : List (String × JVal))
    (h : request.lookup "id" = none) :
    MCPServer.handle_request st request = none :=
  handle_request_of_null_id st request (by simp [dictGetD, h])

/-- Witness for C2: a notification `tools/call` without a tool name — whose
routed handler raises `ValueError` internally — yields no reply, on an
uninitialized registry (whose `execute_tool` would raise) as well as on an
initialized one. -/
theorem c2_notification_no_reply_witness :
    MCPServer.handle_request ⟨[], [], false⟩
      [("method", .str "tools/call"), ("params", .obj [])] = none ∧
    MCPServer.handle_request ⟨[], [], true⟩
      [("method", .str "tools/call"),
       ("params", .obj [("name", .str "ckan.search_datasets")])] = none :=
  ⟨c2_notification_no_reply ⟨[], [], false⟩
      [("method", .str "tools/call"), ("params", .obj [])] rfl,
   c2_notification_no_reply ⟨[], [], true⟩
      [("method", .str "tools/call"),
       ("params", .obj [("name", .str "ckan.search_datasets")])] rfl⟩

/-- C10.  An envelope whose `id` field is present but holds JSON `null` is
classified as a notification exactly like an absent `id`: `handle_request`
returns no reply for every method and every server state. -/
theorem c10_null_id_is_notification (st : PMState) (request : List (String × JVal))
    (h : request.lookup "id" = some .null) :
    MCPServer.handle_request st request = none :=
  handle_request_of_null_id st request (by simp [dictGetD, h])

/-- Witness for C10: `{"id": null, "method": "ping"}` and an erroring
`{"id": null, "method": "nonexistent"}` both yield no reply. -/
theorem c10_null_id_is_notification_witness :
    MCPServer.handle_request ⟨[], [], true⟩
      [("id", .null), ("method", .str "ping")] = none ∧
    MCPServer.handle_request ⟨[], [], true⟩
      [("id", .null), ("method", .str "nonexistent")] = none :=
  ⟨c10_null_id_is_notification ⟨[], [], true⟩
      [("id", .null), ("method", .str "ping")] rfl,
   c10_null_id_is_notification ⟨[], [], true⟩
      [("id", .null), ("method", .str "nonexistent")] rfl⟩

/-! ## Claim C7 -/

/-- The reply shape the spec prescribes for a failed call: protocol tag,
echoed id, and an error object with the fixed internal-error code, the
message `Internal error` and the stringified cause. -/
def specErrorReply (idv : JVal) (cause : String) : JVal :=
  .obj [("jsonrpc", .str "2.0"), ("id", idv),
        ("error", .obj [("code", .num (-32603)),
                        ("message", .str "Internal error"),
                        ("data", .str cause)])]

/-- Counterexample for C7 as frozen: an envelope whose `id` field is
present (holding JSON `null`) and whose handling errors (unknown method —
routing it as a call yields an error) produces no reply at all, not an
error reply: id presence alone does not make the message a call. -/
theorem c7_counterexample :
    MCPServer.route ⟨[], [], true⟩ (.str "nope") (.obj []) false =
      some (.error "Unknown method: nope") ∧
    List.lookup "id" [("id", JVal.null), ("method", JVal.str "nope")] = some JVal.null ∧
    MCPServer.handle_request ⟨[], [], true⟩
      [("id", .null), ("method", .str "nope")] = none := by
  refine ⟨rfl, rfl, ?_⟩
  exact handle_request_of_null_id _ _ rfl

/-- C7 (amended: the echoed `id` is present *and non-null*; a null `id` is
treated as absent, see C10).  Every failed call — the routed handling
errors, including `tools/call` with a falsy/absent `params.name` and any
unknown method — produces, without raising, exactly the reply
`{jsonrpc, id: echoed, error: {code: -32603, message: "Internal error",
data: stringified cause}}`. -/
theorem c7_failed_call_error_reply (st : PMState) (request : List (String × JVal))
    (idv : JVal) (hid : request.lookup "id" = some idv) (hnn : idv ≠ .null) :
    (∀ e, MCPServer.route st (dictGetD request "method" .null)
        (dictGetD request "params" (.obj [])) false = some (.error e) →
      MCPServer.handle_request st request = some (specErrorReply idv e)) ∧
    (∀ ps, request.lookup "method" = some (.str "tools/call") →
      request.lookup "params" = some (.obj ps) →
      (dictGetD ps "name" .null).truthy = false →
      MCPServer.handle_request st request = some (specErrorReply idv "Tool name is required")) ∧
    (∀ m, request.lookup "method" = some (.str m) →
      m ≠ "initialize" → m ≠ "tools/list" → m ≠ "tools/call" → m ≠ "ping" →
      m ≠ "notifications/initialized" →
      MCPServer.handle_request st request =
        some (specErrorReply idv ("Unknown method: " ++ m))) := by
  have hreq : dictGetD request "id" .null = idv := by simp [dictGetD, hid]
  have hnot : (match idv with | JVal.null => true | _ => false) = false := by
    cases idv with
    | null => exact absurd rfl hnn
    | bool b => rfl
    | num n => rfl
    | str s => rfl
    | arr xs => rfl
    | obj fs => rfl
  have key : ∀ e, MCPServer.route st (dictGetD request "method" .null)
      (dictGetD request "params" (.obj [])) false = some (.error e) →
      MCPServer.handle_request st request = some (specErrorReply idv e) := by
    intro e he
    simp only [MCPServer.handle_request, hreq, hnot, he, specErrorReply]
    simp
  refine ⟨key, ?_, ?_⟩
  · intro ps hm hp hname
    apply key
    have hm' : dictGetD request "method" .null = .str "tools/call" := by
      simp [dictGetD, hm]
    have hp' : dictGetD request "params" (.obj []) = .obj ps := by
      simp [dictGetD, hp]
    simp [MCPServer.route, MCPServer.handle_tools_call, hm', hp', hname]
  · intro m hm h1 h2 h3 h4 h5
    apply key
    have hm' : dictGetD request "method" .null = .str m := by
      simp [dictGetD, hm]
    simp [MCPServer.route, hm', h1, h2, h3, h4, h5, JVal.pyStr]

/-- Witness for C7: on a live registry state, `{"id":1,"method":"tools/call"}`
with no `params.name` and `{"id":1,"method":"frobnicate"}` both produce the
fixed internal-error reply with the echoed id. -/
theorem c7_failed_call_error_reply_witness :
    MCPServer.handle_request ⟨[], [], true⟩
      [("id", .num 1), ("method", .str "tools/call"), ("params", .obj [])] =
      some (specErrorReply (.num 1) "Tool name is required") ∧
    MCPServer.handle_request ⟨[], [], true⟩
      [("id", .num 1), ("method", .str "frobnicate")] =
      some (specErrorReply (.num 1) "Unknown method: frobnicate") :=
  ⟨(c7_failed_call_error_reply ⟨[], [], true⟩
      [("id", .num 1), ("method", .str "tools/call"), ("params", .obj [])]
      (.num 1) rfl (by simp)).2.1 [] rfl rfl rfl,
   (c7_failed_call_error_reply ⟨[], [], true⟩
      [("id", .num 1), ("method", .str "frobnicate")]
      (.num 1) rfl (by simp)).2.2 "frobnicate" rfl
      (by decide) (by decide) (by decide) (by decide) (by decide)⟩

/-! ## Claim C3 -/

/-- C3.  The registry's `execute_tool`: before `load_plugins` completed it
raises the "not initialized" `RuntimeError`; for an unknown name it raises
a "not found" `ValueError` whose message names every registered tool; for
a registered name whose owning provider is loaded it never raises — a
provider exception is converted into a failed `ToolResult`. -/
theorem c3_registry_execute_tool (st : PMState) (tool_name : JVal) (args : JVal) :
    (st.initialized = false →
      PluginManager.execute_tool st tool_name args =
        .error "Plugin Manager not initialized. Call load_plugins() first.") ∧
    (∀ s, st.initialized = true → tool_name = .str s → st.tools.lookup s = none →
      PluginManager.execute_tool st tool_name args =
        .error ("Tool '" ++ s ++ "' not found. Available tools: " ++
          joinSep ", " (sortStrings (st.tools.map (·.1)))) ∧
      ∀ k ∈ st.tools.map (·.1),
        strContains ("Tool '" ++ s ++ "' not found. Available tools: " ++
          joinSep ", " (sortStrings (st.tools.map (·.1)))) k = true) ∧
    (∀ s pn an plugin, st.initialized = true → tool_name = .str s →
      st.tools.lookup s = some (pn, an) → st.plugins.lookup pn = some plugin →
      ∃ r, PluginManager.execute_tool st tool_name args = .ok r ∧
        (plugin.executeTool an args = .ok r ∨
         ∃ e, plugin.executeTool an args = .error e ∧
           r = ⟨[], false, some ("Tool execution failed: " ++ e)⟩)) := by
  refine ⟨?_, ?_, ?_⟩
  · intro h
    simp [PluginManager.execute_tool, h]
  · intro s hinit hs hnone
    subst hs
    constructor
    · simp [PluginManager.execute_tool, hinit, hnone, JVal.pyStr]
    · intro k hk
      exact strContains_append_left _ _ _
        (strContains_joinSep ", " k _ (mem_sortStrings k _ hk))
  · intro s pn an plugin hinit hs hsome hplug
    subst hs
    cases hx : plugin.executeTool an args with
    | ok r =>
      exact ⟨r, by simp [PluginManager.execute_tool, hinit, hsome, hplug, hx], Or.inl rfl⟩
    | error e =>
      exact ⟨⟨[], false, some ("Tool execution failed: " ++ e)⟩,
        by simp [PluginManager.execute_tool, hinit, hsome, hplug, hx], Or.inr ⟨e, rfl, rfl⟩⟩

/-- Witness for C3: an uninitialized registry raises "not initialized"; an
initialized one with a single registered tool raises the enumerating "not
found" error for an unknown name (the message contains the registered
name), and returns a `ToolResult` — not an exception — for the registered
name even though its provider raises. -/
theorem c3_registry_execute_tool_witness :
    (PluginManager.execute_tool ⟨[], [], false⟩ (.str "ckan.search_datasets") (.obj []) =
      .error "Plugin Manager not initialized. Call load_plugins() first.") ∧
    (PluginManager.execute_tool
        ⟨[("ckan", ⟨[], fun _ _ => .error "boom"⟩)],
         [("ckan.search_datasets", ("ckan", "search_datasets"))], true⟩
        (.str "nope") (.obj []) =
      .error ("Tool '" ++ "nope" ++ "' not found. Available tools: " ++
        joinSep ", " (sortStrings ["ckan.search_datasets"])) ∧
     strContains ("Tool '" ++ "nope" ++ "' not found. Available tools: " ++
        joinSep ", " (sortStrings ["ckan.search_datasets"])) "ckan.search_datasets" = true) ∧
    (∃ r, PluginManager.execute_tool
        ⟨[("ckan", ⟨[], fun _ _ => .error "boom"⟩)],
         [("ckan.search_datasets", ("ckan", "search_datasets"))], true⟩
        (.str "ckan.search_datasets") (.obj []) = .ok r) := by
  have h0 := c3_registry_execute_tool ⟨[], [], false⟩ (.str "ckan.search_datasets") (.obj [])
  have h1 := c3_registry_execute_tool
    ⟨[("ckan", ⟨[], fun _ _ => .error "boom"⟩)],
     [("ckan.search_datasets", ("ckan", "search_datasets"))], true⟩
    (.str "nope") (.obj [])
  have h2 := c3_registry_execute_tool
    ⟨[("ckan", ⟨[], fun _ _ => .error "boom"⟩)],
     [("ckan.search_datasets", ("ckan", "search_datasets"))], true⟩
    (.str "ckan.search_datasets") (.obj [])
  refine ⟨h0.1 rfl, ?_, ?_⟩
  · have := h1.2.1 "nope" rfl rfl rfl
    exact ⟨this.1, this.2 "ckan.search_datasets" (by decide)⟩
  · obtain ⟨r, hr, _⟩ := h2.2.2 "ckan.search_datasets" "ckan" "search_datasets"
      ⟨[], fun _ _ => .error "boom"⟩ rfl rfl rfl rfl
    exact ⟨r, hr⟩

/-! ## Claim C9 -/

theorem searchDatasetsTool_invariant (env : CKANEnv) (args : JVal)
    (r : ToolResult) (t : List ApiCall)
    (h : CKANPlugin.searchDatasetsTool env args = (.ok r, t)) :
    r.error_message ≠ none ↔ r.success = false := by
  unfold CKANPlugin.searchDatasetsTool at h
  dsimp only at h
  repeat' split at h
  all_goals
    simp only [Prod.mk.injEq] at h
    first
    | exact Except.noConfusion h.1
    | (have hx := Except.ok.inj h.1
       subst hx
       simp)

theorem getDatasetTool_invariant (env : CKANEnv) (args : JVal)
    (r : ToolResult) (t : List ApiCall)
    (h : CKANPlugin.getDatasetTool env args = (.ok r, t)) :
    r.error_message ≠ none ↔ r.success = false := by
  unfold CKANPlugin.getDatasetTool at h
  dsimp only at h
  repeat' split at h
  all_goals
    simp only [Prod.mk.injEq] at h
    first
    | exact Except.noConfusion h.1
    | (have hx := Except.ok.inj h.1
       subst hx
       simp)

theorem queryDataTool_invariant (env : CKANEnv) (args : JVal)
    (r : ToolResult) (t : List ApiCall)
    (h : CKANPlugin.queryDataTool env args = (.ok r, t)) :
    r.error_message ≠ none ↔ r.success = false := by
  unfold CKANPlugin.queryDataTool at h
  dsimp only at h
  repeat' split at h
  all_goals
    simp only [Prod.mk.injEq] at h
    first
    | exact Except.noConfusion h.1
    | (have hx := Except.ok.inj h.1
       subst hx
       simp)

theorem getSchemaTool_invariant (env : CKANEnv) (args : JVal)
    (r : ToolResult) (t : List ApiCall)
    (h : CKANPlugin.getSchemaTool env args = (.ok r, t)) :
    r.error_message ≠ none ↔ r.success = false := by
  unfold CKANPlugin.getSchemaTool at h
  dsimp only at h
  repeat' split at h
  all_goals
    simp only [Prod.mk.injEq] at h
    first
    | exact Except.noConfusion h.1
    | (have hx := Except.ok.inj h.1
       subst hx
       simp)

theorem executeSqlTool_invariant (env : CKANEnv) (args : JVal)
    (r : ToolResult) (t : List ApiCall)
    (h : CKANPlugin.executeSqlTool env args = (.ok r, t)) :
    r.error_message ≠ none ↔ r.success = false := by
  unfold CKANPlugin.executeSqlTool at h
  dsimp only at h
  repeat' split at h
  all_goals
    simp only [Prod.mk.injEq] at h
    first
    | exact Except.noConfusion h.1
    | (have hx := Except.ok.inj h.1
       subst hx
       simp)

theorem aggregateDataTool_invariant (env : CKANEnv) (args : JVal)
    (r : ToolResult) (t : List ApiCall)
    (h : CKANPlugin.aggregateDataTool env args = (.ok r, t)) :
    r.error_message ≠ none ↔ r.success = false := by
  unfold CKANPlugin.aggregateDataTool at h
  dsimp only at h
  repeat' split at h
  all_goals
    simp only [Prod.mk.injEq] at h
    first
    | exact Except.noConfusion h.1
    | (have hx := Except.ok.inj h.1
       subst hx
       simp)

theorem ckan_body_invariant (env : CKANEnv) (tn : String) (args : JVal)
    (r : ToolResult) (t : List ApiCall)
    (h : CKANPlugin.execute_tool_body env tn args = (.ok r, t)) :
    r.error_message ≠ none ↔ r.success = false := by
  unfold CKANPlugin.execute_tool_body at h
  repeat' split at h
  · exact searchDatasetsTool_invariant env args r t h
  · exact getDatasetTool_invariant env args r t h
  · exact queryDataTool_invariant env args r t h
  · exact getSchemaTool_invariant env args r t h
  · exact executeSqlTool_invariant env args r t h
  · exact aggregateDataTool_invariant env args r t h
  · simp only [Prod.mk.injEq] at h
    have hx := Except.ok.inj h.1
    subst hx
    simp

/-- C9.  Every `ToolResult` produced by the CKAN provider's `execute_tool`
(for any backend behaviour, tool name and arguments), and every one
produced by the registry's `execute_tool` when its loaded providers return
invariant-respecting outcomes, has `error_message ≠ None` exactly when
`success` is false. -/
theorem c9_error_message_iff_failure :
    (∀ (env : CKANEnv) (tn : String) (args : JVal),
      (CKANPlugin.execute_tool env tn args).1.error_message ≠ none ↔
        (CKANPlugin.execute_tool env tn args).1.success = false) ∧
    (∀ (st : PMState) (tn : JVal) (args : JVal) (r : ToolResult),
      (∀ pn plugin, st.plugins.lookup pn = some plugin →
        ∀ n a r', plugin.executeTool n a = .ok r' →
          (r'.error_message ≠ none ↔ r'.success = false)) →
      PluginManager.execute_tool st tn args = .ok r →
      (r.error_message ≠ none ↔ r.success = false)) := by
  constructor
  · intro env tn args
    unfold CKANPlugin.execute_tool
    cases hb : CKANPlugin.execute_tool_body env tn args with
    | mk fst snd =>
      cases fst with
      | ok r => simpa using ckan_body_invariant env tn args r snd hb
      | error e => simp
  · intro st tn args r hinv h
    by_cases hinit : st.initialized = true
    · cases htool : (match tn with | JVal.str s => st.tools.lookup s | _ => none) with
      | none => simp [PluginManager.execute_tool, hinit, htool] at h
      | some pa =>
        obtain ⟨pn, an⟩ := pa
        cases hplug : st.plugins.lookup pn with
        | none => simp [PluginManager.execute_tool, hinit, htool, hplug] at h
        | some plugin =>
          cases hx : plugin.executeTool an args with
          | ok result =>
            have hr : result = r := by
              simpa [PluginManager.execute_tool, hinit, htool, hplug, hx] using h
            subst hr
            exact hinv pn plugin hplug an args result hx
          | error e =>
            have hr : (⟨[], false, some ("Tool execution failed: " ++ e)⟩ : ToolResult) = r := by
              simpa [PluginManager.execute_tool, hinit, htool, hplug, hx] using h
            subst hr
            simp
    · have h0 : st.initialized = false := by simpa using hinit
      simp [PluginManager.execute_tool, h0] at h

/-- Witness for C9's registry half, applied at a concrete state whose
single provider is the CKAN provider model (which satisfies the
invariant's hypothesis by the first half): the registry outcome for a
registered tool satisfies the invariant. -/
theorem c9_error_message_iff_failure_witness :
    ∀ r : ToolResult,
      PluginManager.execute_tool
        ⟨[("ckan", ⟨[], fun n a =>
            .ok (CKANPlugin.execute_tool
              ⟨fun _ _ => .ok .null, fun _ => "", fun _ => "", fun _ _ => "",
               fun _ => "", fun _ _ => ""⟩ n a).1⟩)],
         [("ckan.get_dataset", ("ckan", "get_dataset"))], true⟩
        (.str "ckan.get_dataset") (.obj []) = .ok r →
      (r.error_message ≠ none ↔ r.success = false) := by
  intro r h
  refine c9_error_message_iff_failure.2 _ _ _ r ?_ h
  intro pn plugin hp n a r' hr'
  have hpl : (⟨[], fun n a =>
      .ok (CKANPlugin.execute_tool
        ⟨fun _ _ => .ok .null, fun _ => "", fun _ => "", fun _ _ => "",
         fun _ => "", fun _ _ => ""⟩ n a).1⟩ : PluginModel) = plugin := by
    by_cases hpn : pn = "ckan"
    · subst hpn
      simpa [List.lookup] using hp
    · have hb : (pn == "ckan") = false := beq_eq_false_iff_ne.mpr hpn
      simp [List.lookup, hb] at hp
  subst hpl
  simp only at hr'
  have := Except.ok.inj hr'
  subst this
  exact c9_error_message_iff_failure.1 _ n a

/-! ## Claim C4 -/

theorem execute_sql_rejected (api : Api) (sqlv : JVal) (reason : String)
    (hval : SQLValidator.validate_query sqlv = (false, some reason)) :
    CKANPlugin.execute_sql api sqlv =
      (.obj [("error", .bool true), ("message", .str reason)], []) := by
  unfold CKANPlugin.execute_sql
  rw [hval]

theorem executeSqlTool_rejected (env : CKANEnv) (fs : List (String × JVal))
    (sqlv : JVal) (reason : String)
    (hs : dictGetD fs "sql" .null = sqlv) (htr : sqlv.truthy = true)
    (hval : SQLValidator.validate_query sqlv = (false, some reason)) :
    CKANPlugin.executeSqlTool env (.obj fs) =
      (.ok ⟨[], false, some reason⟩, []) := by
  unfold CKANPlugin.executeSqlTool
  dsimp only [CKANPlugin.argFields]
  rw [hs, execute_sql_rejected env.api sqlv reason hval, htr]
  simp [jGetD, jStrD, dictGetD, List.lookup,
    show JVal.truthy (JVal.bool true) = true from rfl]

theorem aggregateDataTool_rejected (env : CKANEnv) (fs : List (String × JVal))
    (rid : JVal) (gb : List String) (ms : List (String × JVal))
    (fl hv : Option (List (String × JVal))) (reason : String)
    (hr : dictGetD fs "resource_id" .null = rid) (htr : rid.truthy = true)
    (hmet : (dictGetD fs "metrics" (.obj [])).truthy = true)
    (hgb : CKANPlugin.iterStrings (dictGetD fs "group_by" (.arr [])) = .ok gb)
    (hms : CKANPlugin.itemsOf (dictGetD fs "metrics" (.obj [])) = .ok ms)
    (hfl : CKANPlugin.optItemsOf (dictGetD fs "filters" .null) = .ok fl)
    (hhv : CKANPlugin.optItemsOf (dictGetD fs "having" .null) = .ok hv)
    (hval : SQLValidator.validate_query
      (.str (CKANPlugin.buildAggSql rid gb ms fl hv
        (dictGetD fs "order_by" .null) (dictGetD fs "limit" (.num 100)))) =
      (false, some reason)) :
    CKANPlugin.aggregateDataTool env (.obj fs) =
      (.ok ⟨[], false, some reason⟩, []) := by
  have hrun : CKANPlugin.aggregate_data env.api rid gb ms fl hv
      (dictGetD fs "order_by" JVal.null) (dictGetD fs "limit" (JVal.num 100)) =
      (.obj [("error", .bool true), ("message", .str reason)], []) := by
    unfold CKANPlugin.aggregate_data
    exact execute_sql_rejected env.api _ reason hval
  unfold CKANPlugin.aggregateDataTool
  dsimp only [CKANPlugin.argFields]
  rw [hr, htr, hmet]
  simp only [hgb, hms, hfl, hhv, Except.bind, bind, pure, Except.pure, Bool.not_true,
    if_false, ite_false, Bool.false_eq_true]
  rw [hrun]
  simp [jGetD, jStrD, dictGetD, List.lookup,
    show JVal.truthy (JVal.bool true) = true from rfl]

/-- C4.  For both advanced SQL tools, the Query Safety Validator gates the
backend: whenever `validate_query` rejects the (pass-through, resp.
builder-assembled) query string, the tool call returns a failed
`ToolOutcome` carrying the rejection reason and the list of backend calls
issued is empty. -/
theorem c4_validator_gates_backend :
    (∀ (env : CKANEnv) (fs : List (String × JVal)) (sqlv : JVal) (reason : String),
      dictGetD fs "sql" .null = sqlv →
      sqlv.truthy = true →
      SQLValidator.validate_query sqlv = (false, some reason) →
      CKANPlugin.execute_tool env "execute_sql" (.obj fs) =
        (⟨[], false, some reason⟩, [])) ∧
    (∀ (env : CKANEnv) (fs : List (String × JVal)) (rid : JVal)
        (gb : List String) (ms : List (String × JVal))
        (fl hv : Option (List (String × JVal))) (reason : String),
      dictGetD fs "resource_id" .null = rid →
      rid.truthy = true →
      (dictGetD fs "metrics" (.obj [])).truthy = true →
      CKANPlugin.iterStrings (dictGetD fs "group_by" (.arr [])) = .ok gb →
      CKANPlugin.itemsOf (dictGetD fs "metrics" (.obj [])) = .ok ms →
      CKANPlugin.optItemsOf (dictGetD fs "filters" .null) = .ok fl →
      CKANPlugin.optItemsOf (dictGetD fs "having" .null) = .ok hv →
      SQLValidator.validate_query
        (.str (CKANPlugin.buildAggSql rid gb ms fl hv
          (dictGetD fs "order_by" .null) (dictGetD fs "limit" (.num 100)))) =
        (false, some reason) →
      CKANPlugin.execute_tool env "aggregate_data" (.obj fs) =
        (⟨[], false, some reason⟩, [])) := by
  constructor
  · intro env fs sqlv reason hs htr hval
    have hb := executeSqlTool_rejected env fs sqlv reason hs htr hval
    unfold CKANPlugin.execute_tool CKANPlugin.execute_tool_body
    simp [hb]
  · intro env fs rid gb ms fl hv reason hr htr hmet hgb hms hfl hhv hval
    have hb := aggregateDataTool_rejected env fs rid gb ms fl hv reason
      hr htr hmet hgb hms hfl hhv hval
    unfold CKANPlugin.execute_tool CKANPlugin.execute_tool_body
    simp [hb]

/-- Witness for C4: a pass-through query rejected for its forbidden `DROP`
keyword and an aggregation whose metric expression smuggles `pg_sleep`
both come back as failed outcomes carrying the validator's reason, with no
backend call (for an arbitrary concrete backend). -/
theorem c4_validator_gates_backend_witness :
    CKANPlugin.execute_tool
      ⟨fun _ _ => .ok .null, fun _ => "", fun _ => "", fun _ _ => "",
       fun _ => "", fun _ _ => ""⟩
      "execute_sql" (.obj [("sql", .str "SELECT x; DROP TABLE t")]) =
      (⟨[], false, some "Forbidden keyword: DROP"⟩, []) ∧
    CKANPlugin.execute_tool
      ⟨fun _ _ => .ok .null, fun _ => "", fun _ => "", fun _ _ => "",
       fun _ => "", fun _ _ => ""⟩
      "aggregate_data"
      (.obj [("resource_id", .str "r1"), ("metrics", .obj [("m", .str "pg_sleep(1)")])]) =
      (⟨[], false, some "Sleep function detected"⟩, []) := by
  constructor
  · exact c4_validator_gates_backend.1 _ _ (.str "SELECT x; DROP TABLE t")
      "Forbidden keyword: DROP" rfl rfl (by decide)
  · exact c4_validator_gates_backend.2 _ _ (.str "r1") [] [("m", .str "pg_sleep(1)")]
      none none "Sleep function detected" rfl rfl rfl rfl rfl rfl rfl (by decide)

/-! ## Claim C5 -/

/-- Counterexample for C5 as frozen: a whitespace-only input is truthy in
Python, so it passes the first check of `validate_query`; it is rejected
only later, by the SELECT-prefix check, and the rejection reason does not
say the input must be non-empty. -/
theorem c5_counterexample :
    SQLValidator.validate_query (.str " ") = (false, some "Only SELECT queries allowed") ∧
    strContains "Only SELECT queries allowed" "must be non-empty" = false := by
  constructor
  · rfl
  · decide

/-- C5 (amended: the first check rejects non-string and *empty* input with
"SQL must be non-empty string"; whitespace-only input passes that first
check and is instead rejected by the later SELECT-prefix check, with
reason "Only SELECT queries allowed"). -/
theorem c5_non_empty_first_check (v : JVal) :
    ((∀ s, v ≠ .str s) →
      SQLValidator.validate_query v = (false, some "SQL must be non-empty string")) ∧
    (v = .str "" →
      SQLValidator.validate_query v = (false, some "SQL must be non-empty string")) ∧
    (∀ s, v = .str s → s ≠ "" → s.data.all isPyWs = true →
      SQLValidator.validate_query v = (false, some "Only SELECT queries allowed")) := by
  refine ⟨?_, ?_, ?_⟩
  · intro h
    cases v with
    | str s => exact absurd rfl (h s)
    | null => rfl
    | bool b => rfl
    | num n => rfl
    | arr xs => rfl
    | obj fs => rfl
  · intro h
    subst h
    rfl
  · intro s hv hne hws
    subst hv
    have hie : s.isEmpty = false := by
      cases hh : s.isEmpty
      · rfl
      · exact absurd ((String.isEmpty_iff s).mp hh) hne
    have hstrip : pyStrip s = "" := by
      unfold pyStrip
      have h1 : s.data.dropWhile isPyWs = [] :=
        List.dropWhile_eq_nil_iff.mpr (fun x hx => (List.all_eq_true.mp hws) x hx)
      rw [h1]
      rfl
    simp only [SQLValidator.validate_query, hie, hstrip]
    rfl

/-- Witness for C5: a non-string, the empty string, and a whitespace-only
string, each at its concrete rejection. -/
theorem c5_non_empty_first_check_witness :
    SQLValidator.validate_query (.num 7) = (false, some "SQL must be non-empty string") ∧
    SQLValidator.validate_query (.str "") = (false, some "SQL must be non-empty string") ∧
    SQLValidator.validate_query (.str " \t\n") =
      (false, some "Only SELECT queries allowed") :=
  ⟨(c5_non_empty_first_check (.num 7)).1 (fun s h => JVal.noConfusion h),
   (c5_non_empty_first_check (.str "")).2.1 rfl,
   (c5_non_empty_first_check (.str " \t\n")).2.2 " \t\n" rfl (by decide) (by decide)⟩

/-! ## Claim C6 -/

/-- Counterexample for C6 as frozen: a quoted 36-character token in
identifier shape that is not a canonical UUID is rejected, but the
rejection reason is `Invalid UUID format: <token>` — it does not contain
the claimed wording "invalid identifier format" (even case-insensitively). -/
theorem c6_counterexample :
    SQLValidator.validate_query
      (.str "SELECT * FROM \"aaaaaaaaaaaaaaaaaaaaaaaaaaaaaaaaaaaa\"") =
      (false, some "Invalid UUID format: aaaaaaaaaaaaaaaaaaaaaaaaaaaaaaaaaaaa") ∧
    strContainsCI "Invalid UUID format: aaaaaaaaaaaaaaaaaaaaaaaaaaaaaaaaaaaa"
      "invalid identifier format" = false := by
  constructor
  · decide
  · decide

/-- C6 (amended: the rejection reason is `Invalid UUID format: <token>`).
For every query that passes checks 1–5 (non-empty string, length,
SELECT prefix, forbidden keywords, dangerous patterns, single parsed
SELECT statement), `validate_query` is decided by the double-quoted
36-character identifier-shaped tokens: it accepts exactly when every
extracted token matches the canonical 8-4-4-4-12 hexadecimal UUID
pattern, and otherwise rejects with `Invalid UUID format: <token>` for
the first failing token. -/
theorem c6_uuid_extraction_check (s : String) (hne : s.isEmpty = false)
    (hlen : ¬ (pyStrip s).length > SQLValidator.MAX_SQL_LENGTH)
    (hsel : isPrefixL "SELECT".data ((pyStrip s).data.map Char.toUpper) = true)
    (hforb : SQLValidator.findForbidden (pyStrip s) = none)
    (hdang : SQLValidator.findDangerous (pyStrip s) = none)
    (hcnt : SQLValidator.sqlparseStmtCount (pyStrip s) = 1)
    (htyp : SQLValidator.sqlparseTypeSelect (pyStrip s) = true) :
    SQLValidator.validate_query (.str s) =
      (match (SQLValidator.extractIds (pyStrip s).data).find?
          (fun rid => !SQLValidator.uuidMatch rid) with
       | some rid => (false, some ("Invalid UUID format: " ++ rid))
       | none => (true, none)) ∧
    ((∀ rid ∈ SQLValidator.extractIds (pyStrip s).data, SQLValidator.uuidMatch rid = true) →
      SQLValidator.validate_query (.str s) = (true, none)) ∧
    (∀ rid, (SQLValidator.extractIds (pyStrip s).data).find?
        (fun r => !SQLValidator.uuidMatch r) = some rid →
      SQLValidator.validate_query (.str s) =
        (false, some ("Invalid UUID format: " ++ rid))) := by
  have key : SQLValidator.validate_query (.str s) =
      (match (SQLValidator.extractIds (pyStrip s).data).find?
          (fun rid => !SQLValidator.uuidMatch rid) with
       | some rid => (false, some ("Invalid UUID format: " ++ rid))
       | none => (true, none)) := by
    simp only [SQLValidator.validate_query, hne]
    simp only [hforb, hdang]
    simp [hlen, hsel, hcnt, htyp]
  refine ⟨key, ?_, ?_⟩
  · intro hall
    rw [key]
    have : (SQLValidator.extractIds (pyStrip s).data).find?
        (fun rid => !SQLValidator.uuidMatch rid) = none := by
      rw [List.find?_eq_none]
      intro x hx
      simp [hall x hx]
    rw [this]
  · intro rid hfind
    rw [key, hfind]

/-- Witness for C6: the spec's concrete example
`SELECT * FROM "a1b2c3d4-e5f6-7890-abcd-ef1234567890"` passes checks 1–5,
its single extracted token matches the UUID pattern, and the validator
accepts it with `(true, None)`. -/
theorem c6_uuid_extraction_check_witness :
    SQLValidator.validate_query
      (.str "SELECT * FROM \"a1b2c3d4-e5f6-7890-abcd-ef1234567890\"") = (true, none) :=
  (c6_uuid_extraction_check "SELECT * FROM \"a1b2c3d4-e5f6-7890-abcd-ef1234567890\""
    (by decide) (by decide) (by decide) (by decide) (by decide) (by decide)
    (by decide)).2.1 (by decide)

/-! ## Claim C8 -/

/-- Spec-side escaping: each single quote of a string-valued filter value
is doubled before interpolation. -/
def specEscape (s : String) : String :=
  ⟨s.data.flatMap (fun c => if c = '\'' then ['\'', '\''] else [c])⟩

theorem pyReplaceQuotes_eq (s : String) : CKANPlugin.pyReplaceQuotes s = specEscape s := by
  unfold CKANPlugin.pyReplaceQuotes specEscape
  have hf : (fun c : Char => if c == '\'' then ['\'', '\''] else [c]) =
      (fun c : Char => if c = '\'' then ['\'', '\''] else [c]) := by
    funext c
    by_cases h : c = '\'' <;> simp [h]
  rw [hf]

/-- Spec-side rendering of one filter: a string value is interpolated into
a quoted literal with its quotes doubled, a null value renders as
`<field> IS NULL`, every other value as an unquoted literal. -/
def specFilterCondition (field : String) (v : JVal) : String :=
  match v with
  | .str s => field ++ " = '" ++ specEscape s ++ "'"
  | .null => field ++ " IS NULL"
  | v => field ++ " = " ++ v.pyStr

/-- Spec-side WHERE clause: absent or empty filters yield no clause,
otherwise the rendered conditions joined with ` AND `. -/
def specWhereClause : Option (List (String × JVal)) → String
  | none => ""
  | some fs =>
    if fs.isEmpty then ""
    else "WHERE " ++ joinSep " AND " (fs.map (fun fv => specFilterCondition fv.1 fv.2))

/-- C8.  The aggregation builder assembles exactly the stripped template
`SELECT <clause> FROM "<resource-id>" <WHERE> <GROUP BY> <HAVING>
<ORDER BY> LIMIT <n>` from its structured inputs, where the WHERE clause
renders each filter by the spec's three rules: string values quoted with
single quotes doubled, null values as `IS NULL`, all other values as
unquoted literals. -/
theorem c8_aggregate_sql_assembly (rid : JVal) (gb : List String)
    (ms : List (String × JVal)) (fl hv : Option (List (String × JVal))) (ob lim : JVal) :
    CKANPlugin.buildAggSql rid gb ms fl hv ob lim =
      pyStrip ("SELECT " ++
        (if (if gb.isEmpty then "" else joinSep ", " gb).isEmpty
         then joinSep ", " (ms.map (fun m => m.2.pyStr ++ " as " ++ m.1))
         else (if gb.isEmpty then "" else joinSep ", " gb) ++ ", " ++
           joinSep ", " (ms.map (fun m => m.2.pyStr ++ " as " ++ m.1))) ++
        " FROM \"" ++ rid.pyStr ++ "\" " ++
        specWhereClause fl ++ " " ++
        (if gb.isEmpty then "" else "GROUP BY " ++ joinSep ", " gb) ++ " " ++
        (match hv with
         | some hs =>
           if hs.isEmpty then ""
           else "HAVING " ++ joinSep " AND " (hs.map (fun e => e.1 ++ " > " ++ e.2.pyStr))
         | none => "") ++ " " ++
        (if ob.truthy then "ORDER BY " ++ ob.pyStr else "") ++
        " LIMIT " ++ lim.pyStr) := by
  have hfun : (fun fv : String × JVal =>
      match fv.2 with
      | JVal.str s => fv.1 ++ " = '" ++ CKANPlugin.pyReplaceQuotes s ++ "'"
      | JVal.null => fv.1 ++ " IS NULL"
      | v => fv.1 ++ " = " ++ v.pyStr) =
      (fun fv : String × JVal => specFilterCondition fv.1 fv.2) := by
    funext fv
    unfold specFilterCondition
    cases h : fv.2 with
    | str s => simp [pyReplaceQuotes_eq]
    | null => rfl
    | bool b => rfl
    | num n => rfl
    | arr xs => rfl
    | obj fs => rfl
  have hw : (match fl with
      | some fs =>
        if fs.isEmpty then ""
        else "WHERE " ++ joinSep " AND " (fs.map (fun fv =>
          match fv.2 with
          | JVal.str s => fv.1 ++ " = '" ++ CKANPlugin.pyReplaceQuotes s ++ "'"
          | JVal.null => fv.1 ++ " IS NULL"
          | v => fv.1 ++ " = " ++ v.pyStr))
      | none => "") = specWhereClause fl := by
    cases fl with
    | none => rfl
    | some fs =>
      unfold specWhereClause
      rw [hfun]
  unfold CKANPlugin.buildAggSql
  dsimp only
  rw [hw]
